import Mathlib

/-!
Shallow embedding of `layers/enums.go` from the gopacket fork under
verification.  The file `enums.go` defines per-family protocol code
enumerations, a metadata record type (`EnumMetadata`), per-family
package-level metadata variables, forwarding methods (`Decode`,
`String`, `LayerType`) on each code type, a content-sniffing dispatcher
(`decodeIPv4or6`), and an `init` function that wires up two families.

Machine integers (`uint8`, `uint16`) are embedded as `Nat`; where the
source reads a byte, the embedding takes the value modulo 256.  A Go
`error` result is embedded as `DecodeResult`: `ok` for a nil error,
`err` for a non-nil error value, and `crash` for a Go runtime panic
(out-of-range indexing, nil interface method call).
-/

/-- Modelled from the spec: the accumulator (`gopacket.PacketBuilder`)
is an external collaborator that the dispatch core treats opaquely; the
missing `gopacket` package defines it.  We embed it as an opaque token
type. -/
structure PacketBuilder where
  tag : Nat
deriving DecidableEq

/-- A Go non-nil `error` value, carrying its message text. -/
structure GoError where
  msg : String
deriving DecidableEq

/-- Outcome of a decode call: nil error, non-nil error value, or a Go
runtime panic (which is an abort, not a returned value). -/
inductive DecodeResult where
  | ok : DecodeResult
  | err : GoError → DecodeResult
  | crash : String → DecodeResult
deriving DecidableEq

/-- `true` iff the outcome is a returned value (success or error),
`false` iff the call aborted with a runtime panic. -/
def DecodeResult.isValue : DecodeResult → Bool
  | .ok => true
  | .err _ => true
  | .crash _ => false

/-- Modelled from the spec: the `gopacket.Decoder` contract — a routine
taking a byte buffer and an accumulator and producing an outcome.  The
missing `gopacket` package defines the interface; `gopacket.DecodeFunc`
adapts a plain function to it, so we embed decoders directly as
functions. -/
def Decoder := List Nat → PacketBuilder → DecodeResult

/-- The error message carried by the text of `msg` contains the literal
text `lit` as a substring. -/
def containsLit (msg lit : String) : Prop :=
  ∃ a b, msg = a ++ lit ++ b

/-- Modelled from the spec: `gopacket.LayerType` is an opaque layer
classification token defined in the missing `gopacket` package.  We
embed it as a wrapped numeral. -/
structure LayerType where
  code : Nat
deriving DecidableEq

/-- Modelled from the spec: `LayerTypeIPv4`, the classification token
for IPv4, defined outside `enums.go`.  Its numeral is arbitrary but
distinct from the other tokens used here. -/
def LayerTypeIPv4 : LayerType := ⟨20⟩

/-- Modelled from the spec: `LayerTypeUDP`, the classification token
for UDP, defined outside `enums.go`. -/
def LayerTypeUDP : LayerType := ⟨17⟩

/-- `EnumMetadata` from `enums.go`: the dispatch row.  `DecodeWith` is a
Go interface value, whose zero value is nil — embedded as `Option`. -/
structure EnumMetadata where
  DecodeWith : Option Decoder
  Name : String
  LayerType : LayerType

/-- Invoke a row's decoder, as Go's `m.DecodeWith.Decode(data, p)`
does: a nil interface receiver is a runtime panic. -/
def EnumMetadata.run (m : EnumMetadata) (data : List Nat) (p : PacketBuilder) : DecodeResult :=
  match m.DecodeWith with
  | none => .crash "invalid memory address or nil pointer dereference"
  | some dec => dec data p

/-- `errorFunc` from `enums.go`: returns a decoder that always returns
one specific error message. -/
def errorFunc (msg : String) : Decoder :=
  fun _ _ => .err ⟨msg⟩

/- The protocol code space types from `enums.go`.  Each is a fixed-width
unsigned integer in Go, embedded as `Nat`. -/

abbrev EthernetType := Nat

abbrev IPProtocol := Nat

abbrev LinkType := Nat

abbrev PPPoECode := Nat

abbrev PPPType := Nat

abbrev SCTPChunkType := Nat

abbrev FDDIFrameControl := Nat

abbrev EAPOLType := Nat

abbrev ProtocolFamily := Nat

abbrev Dot11Type := Nat

/- EthernetType constants, `enums.go` lines 40-60. -/

def EthernetTypeLLC : EthernetType := 0

def EthernetTypeIPv4 : EthernetType := 0x0800

def EthernetTypeARP : EthernetType := 0x0806

def EthernetTypeIPv6 : EthernetType := 0x86DD

def EthernetTypeCiscoDiscovery : EthernetType := 0x2000

def EthernetTypeNortelDiscovery : EthernetType := 0x01a2

def EthernetTypeTransparentEthernetBridging : EthernetType := 0x6558

def EthernetTypeDot1Q : EthernetType := 0x8100

def EthernetTypePPPoEDiscovery : EthernetType := 0x8863

def EthernetTypePPPoESession : EthernetType := 0x8864

def EthernetTypeMPLSUnicast : EthernetType := 0x8847

def EthernetTypeMPLSMulticast : EthernetType := 0x8848

def EthernetTypeEAPOL : EthernetType := 0x888e

def EthernetTypeQinQ : EthernetType := 0x88a8

def EthernetTypeLinkLayerDiscovery : EthernetType := 0x88cc

def EthernetTypeEthernetCTP : EthernetType := 0x9000

/- IPProtocol constants, `enums.go` lines 66-89. -/

def IPProtocolIPv6HopByHop : IPProtocol := 0

def IPProtocolICMPv4 : IPProtocol := 1

def IPProtocolIGMP : IPProtocol := 2

def IPProtocolIPv4 : IPProtocol := 4

def IPProtocolTCP : IPProtocol := 6

def IPProtocolUDP : IPProtocol := 17

def IPProtocolRUDP : IPProtocol := 27

def IPProtocolIPv6 : IPProtocol := 41

def IPProtocolIPv6Routing : IPProtocol := 43

def IPProtocolIPv6Fragment : IPProtocol := 44

def IPProtocolGRE : IPProtocol := 47

def IPProtocolESP : IPProtocol := 50

def IPProtocolAH : IPProtocol := 51

def IPProtocolICMPv6 : IPProtocol := 58

def IPProtocolNoNextHeader : IPProtocol := 59

def IPProtocolIPv6Destination : IPProtocol := 60

def IPProtocolIPIP : IPProtocol := 94

def IPProtocolEtherIP : IPProtocol := 97

def IPProtocolVRRP : IPProtocol := 112

def IPProtocolSCTP : IPProtocol := 132

def IPProtocolUDPLite : IPProtocol := 136

def IPProtocolMPLSInIP : IPProtocol := 137

/- LinkType constants, `enums.go` lines 95-125. -/

def LinkTypeNull : LinkType := 0

def LinkTypeEthernet : LinkType := 1

def LinkTypeTokenRing : LinkType := 6

def LinkTypeArcNet : LinkType := 7

def LinkTypeSLIP : LinkType := 8

def LinkTypePPP : LinkType := 9

def LinkTypeFDDI : LinkType := 10

def LinkTypeATM_RFC1483 : LinkType := 100

def LinkTypeRaw : LinkType := 101

def LinkTypePPP_HDLC : LinkType := 50

def LinkTypePPPEthernet : LinkType := 51

def LinkTypeC_HDLC : LinkType := 104

def LinkTypeIEEE802_11 : LinkType := 105

def LinkTypeFRelay : LinkType := 107

def LinkTypeLoop : LinkType := 108

def LinkTypeLinuxSLL : LinkType := 113

def LinkTypeLTalk : LinkType := 104

def LinkTypePFLog : LinkType := 117

def LinkTypePrismHeader : LinkType := 119

def LinkTypeIPOverFC : LinkType := 122

def LinkTypeSunATM : LinkType := 123

def LinkTypeIEEE80211Radio : LinkType := 127

def LinkTypeARCNetLinux : LinkType := 129

def LinkTypeLinuxIRDA : LinkType := 144

def LinkTypeLinuxLAPD : LinkType := 177

def LinkTypeLinuxUSB : LinkType := 220

def LinkTypeIPv4 : LinkType := 228

def LinkTypeIPv6 : LinkType := 229

/- PPPoECode constants, `enums.go` lines 130-137. -/

def PPPoECodePADI : PPPoECode := 0x09

def PPPoECodePADO : PPPoECode := 0x07

def PPPoECodePADR : PPPoECode := 0x19

def PPPoECodePADS : PPPoECode := 0x65

def PPPoECodePADT : PPPoECode := 0xA7

def PPPoECodeSession : PPPoECode := 0x00

/- PPPType constants, `enums.go` lines 143-148. -/

def PPPTypeIPv4 : PPPType := 0x0021

def PPPTypeIPv6 : PPPType := 0x0057

def PPPTypeMPLSUnicast : PPPType := 0x0281

def PPPTypeMPLSMulticast : PPPType := 0x0283

/- Dot11Type constants and mask, `enums.go` lines 214-265. -/

def Dot11TypeMgmt : Dot11Type := 0x00

def Dot11TypeCtrl : Dot11Type := 0x01

def Dot11TypeData : Dot11Type := 0x02

def Dot11TypeReserved : Dot11Type := 0x03

def dot11TypeMask : Nat := 0x03

def Dot11TypeMgmtBeacon : Dot11Type := 0x20

/-- `Dot11Type.MainType` from `enums.go`: strips the subtype bits,
keeping the coarse category. -/
def Dot11Type.MainType (d : Dot11Type) : Dot11Type :=
  d &&& dot11TypeMask

/-- The package-level mutable state of `enums.go` lines 267-290: one
`EnumMetadata` VARIABLE per family (note: the source declares scalar
variables, not arrays, although its comment speaks of arrays). -/
structure LayersState where
  EthernetTypeMetadata : EnumMetadata
  IPProtocolMetadata : EnumMetadata
  SCTPChunkTypeMetadata : EnumMetadata
  PPPTypeMetadata : EnumMetadata
  PPPoECodeMetadata : EnumMetadata
  LinkTypeMetadata : EnumMetadata
  FDDIFrameControlMetadata : EnumMetadata
  EAPOLTypeMetadata : EnumMetadata
  ProtocolFamilyMetadata : EnumMetadata
  Dot11TypeMetadata : EnumMetadata
  USBTypeMetadata : EnumMetadata

/- The forwarding methods of `enums.go` lines 292-366, one triple (or
pair) per family.  Each reads its family's package-level variable; the
receiver code value `a` does not influence the lookup in the source. -/

def EthernetType.Decode (a : EthernetType) (s : LayersState) (data : List Nat) (p : PacketBuilder) : DecodeResult :=
  s.EthernetTypeMetadata.run data p

def EthernetType.String (a : EthernetType) (s : LayersState) : String :=
  s.EthernetTypeMetadata.Name

def EthernetType.LayerType (a : EthernetType) (s : LayersState) : LayerType :=
  s.EthernetTypeMetadata.LayerType

def IPProtocol.Decode (a : IPProtocol) (s : LayersState) (data : List Nat) (p : PacketBuilder) : DecodeResult :=
  s.IPProtocolMetadata.run data p

def IPProtocol.String (a : IPProtocol) (s : LayersState) : String :=
  s.IPProtocolMetadata.Name

def IPProtocol.LayerType (a : IPProtocol) (s : LayersState) : LayerType :=
  s.IPProtocolMetadata.LayerType

def SCTPChunkType.Decode (a : SCTPChunkType) (s : LayersState) (data : List Nat) (p : PacketBuilder) : DecodeResult :=
  s.SCTPChunkTypeMetadata.run data p

def SCTPChunkType.String (a : SCTPChunkType) (s : LayersState) : String :=
  s.SCTPChunkTypeMetadata.Name

def PPPType.Decode (a : PPPType) (s : LayersState) (data : List Nat) (p : PacketBuilder) : DecodeResult :=
  s.PPPTypeMetadata.run data p

def PPPType.String (a : PPPType) (s : LayersState) : String :=
  s.PPPTypeMetadata.Name

def LinkType.Decode (a : LinkType) (s : LayersState) (data : List Nat) (p : PacketBuilder) : DecodeResult :=
  s.LinkTypeMetadata.run data p

def LinkType.String (a : LinkType) (s : LayersState) : String :=
  s.LinkTypeMetadata.Name

def PPPoECode.Decode (a : PPPoECode) (s : LayersState) (data : List Nat) (p : PacketBuilder) : DecodeResult :=
  s.PPPoECodeMetadata.run data p

def PPPoECode.String (a : PPPoECode) (s : LayersState) : String :=
  s.PPPoECodeMetadata.Name

def FDDIFrameControl.Decode (a : FDDIFrameControl) (s : LayersState) (data : List Nat) (p : PacketBuilder) : DecodeResult :=
  s.FDDIFrameControlMetadata.run data p

def FDDIFrameControl.String (a : FDDIFrameControl) (s : LayersState) : String :=
  s.FDDIFrameControlMetadata.Name

def EAPOLType.Decode (a : EAPOLType) (s : LayersState) (data : List Nat) (p : PacketBuilder) : DecodeResult :=
  s.EAPOLTypeMetadata.run data p

def EAPOLType.String (a : EAPOLType) (s : LayersState) : String :=
  s.EAPOLTypeMetadata.Name

def EAPOLType.LayerType (a : EAPOLType) (s : LayersState) : LayerType :=
  s.EAPOLTypeMetadata.LayerType

def ProtocolFamily.Decode (a : ProtocolFamily) (s : LayersState) (data : List Nat) (p : PacketBuilder) : DecodeResult :=
  s.ProtocolFamilyMetadata.run data p

def ProtocolFamily.String (a : ProtocolFamily) (s : LayersState) : String :=
  s.ProtocolFamilyMetadata.Name

def ProtocolFamily.LayerType (a : ProtocolFamily) (s : LayersState) : LayerType :=
  s.ProtocolFamilyMetadata.LayerType

def Dot11Type.Decode (a : Dot11Type) (s : LayersState) (data : List Nat) (p : PacketBuilder) : DecodeResult :=
  s.Dot11TypeMetadata.run data p

def Dot11Type.String (a : Dot11Type) (s : LayersState) : String :=
  s.Dot11TypeMetadata.Name

def Dot11Type.LayerType (a : Dot11Type) (s : LayersState) : LayerType :=
  s.Dot11TypeMetadata.LayerType

/-- Modelled from the spec: `decodeIPv4`, the out-of-scope IPv4
sub-decoder living in another file of the `layers` package.  Per the
spec's decoder contract it returns success or an error value; per the
spec's scenario it accepts a buffer beginning with a valid IPv4 first
byte `0x45` (version nibble 4). -/
def decodeIPv4 : Decoder := fun data _ =>
  match data with
  | [] => .err ⟨"invalid IPv4 header"⟩
  | b :: _ => if (b % 256) / 16 = 4 then .ok else .err ⟨"invalid IPv4 header"⟩

/-- Modelled from the spec: `decodeIPv6`, the out-of-scope IPv6
sub-decoder living in another file of the `layers` package; accepts
buffers whose version nibble is 6. -/
def decodeIPv6 : Decoder := fun data _ =>
  match data with
  | [] => .err ⟨"invalid IPv6 header"⟩
  | b :: _ => if (b % 256) / 16 = 6 then .ok else .err ⟨"invalid IPv6 header"⟩

/-- Modelled from the spec: `decodeUDP`, the out-of-scope UDP
sub-decoder living in another file of the `layers` package; accepts
buffers long enough to hold the 8-byte UDP header. -/
def decodeUDP : Decoder := fun data _ =>
  if 8 ≤ data.length then .ok else .err ⟨"invalid UDP header"⟩

/-- `decodeIPv4or6` from `enums.go` lines 369-378, generalized over the
two sub-decoders it branches to (the source calls the fixed functions
`decodeIPv4` and `decodeIPv6`).  `data[0]` on an empty slice is a Go
runtime panic; on anything else, `version := data[0] >> 4` is switched
on, with a default of `fmt.Errorf("Invalid IP packet version %v", version)`. -/
def decodeIPv4or6Gen (dec4 dec6 : Decoder) (data : List Nat) (p : PacketBuilder) : DecodeResult :=
  match data with
  | [] => .crash "index out of range"
  | b :: _ =>
    let version := (b % 256) / 16
    if version = 4 then dec4 data p
    else if version = 6 then dec6 data p
    else .err ⟨"Invalid IP packet version " ++ toString version⟩

/-- `decodeIPv4or6` with the source's fixed sub-decoders. -/
def decodeIPv4or6 : List Nat → PacketBuilder → DecodeResult :=
  decodeIPv4or6Gen decodeIPv4 decodeIPv6

/-- The zero value of `EnumMetadata`: nil decoder interface, empty
string, zero `LayerType`. -/
def zeroMetadata : EnumMetadata :=
  { DecodeWith := none, Name := "", LayerType := ⟨0⟩ }

/-- Go initializes every package-level variable to its zero value
before `init` runs. -/
def zeroLayersState : LayersState :=
  ⟨zeroMetadata, zeroMetadata, zeroMetadata, zeroMetadata, zeroMetadata, zeroMetadata,
   zeroMetadata, zeroMetadata, zeroMetadata, zeroMetadata, zeroMetadata⟩

/-- `init` from `enums.go` lines 380-385: assigns rows to exactly two
of the family variables and leaves the rest untouched. -/
def layersInit (s : LayersState) : LayersState :=
  { s with
    EthernetTypeMetadata :=
      { DecodeWith := some decodeIPv4, Name := "IPv4", LayerType := LayerTypeIPv4 },
    IPProtocolMetadata :=
      { DecodeWith := some decodeUDP, Name := "UDP", LayerType := LayerTypeUDP } }

/-- The process state after Go's one-time bootstrap: zero values, then
`init`. -/
def bootState : LayersState := layersInit zeroLayersState

/- The registry operations of the spec, realized on the source's
representation: the registry of a family is its single package-level
`EnumMetadata` variable, so `lookup` reads that variable (the code
argument cannot select among rows) and `store` (the spec's `register`,
realized in the source as plain assignment to the variable, the way the
source's comment invites users to override decoders) replaces it. -/

def lookupEthernetType (s : LayersState) (c : EthernetType) : EnumMetadata :=
  s.EthernetTypeMetadata

def storeEthernetType (s : LayersState) (c : EthernetType) (row : EnumMetadata) : LayersState :=
  { s with EthernetTypeMetadata := row }

def lookupIPProtocol (s : LayersState) (c : IPProtocol) : EnumMetadata :=
  s.IPProtocolMetadata

def storeIPProtocol (s : LayersState) (c : IPProtocol) (row : EnumMetadata) : LayersState :=
  { s with IPProtocolMetadata := row }

def lookupSCTPChunkType (s : LayersState) (c : SCTPChunkType) : EnumMetadata :=
  s.SCTPChunkTypeMetadata

def storeSCTPChunkType (s : LayersState) (c : SCTPChunkType) (row : EnumMetadata) : LayersState :=
  { s with SCTPChunkTypeMetadata := row }

def lookupPPPType (s : LayersState) (c : PPPType) : EnumMetadata :=
  s.PPPTypeMetadata

def storePPPType (s : LayersState) (c : PPPType) (row : EnumMetadata) : LayersState :=
  { s with PPPTypeMetadata := row }

def lookupPPPoECode (s : LayersState) (c : PPPoECode) : EnumMetadata :=
  s.PPPoECodeMetadata

def storePPPoECode (s : LayersState) (c : PPPoECode) (row : EnumMetadata) : LayersState :=
  { s with PPPoECodeMetadata := row }

def lookupLinkType (s : LayersState) (c : LinkType) : EnumMetadata :=
  s.LinkTypeMetadata

def storeLinkType (s : LayersState) (c : LinkType) (row : EnumMetadata) : LayersState :=
  { s with LinkTypeMetadata := row }

def lookupFDDIFrameControl (s : LayersState) (c : FDDIFrameControl) : EnumMetadata :=
  s.FDDIFrameControlMetadata

def storeFDDIFrameControl (s : LayersState) (c : FDDIFrameControl) (row : EnumMetadata) : LayersState :=
  { s with FDDIFrameControlMetadata := row }

def lookupEAPOLType (s : LayersState) (c : EAPOLType) : EnumMetadata :=
  s.EAPOLTypeMetadata

def storeEAPOLType (s : LayersState) (c : EAPOLType) (row : EnumMetadata) : LayersState :=
  { s with EAPOLTypeMetadata := row }

def lookupProtocolFamily (s : LayersState) (c : ProtocolFamily) : EnumMetadata :=
  s.ProtocolFamilyMetadata

def storeProtocolFamily (s : LayersState) (c : ProtocolFamily) (row : EnumMetadata) : LayersState :=
  { s with ProtocolFamilyMetadata := row }

def lookupDot11Type (s : LayersState) (c : Dot11Type) : EnumMetadata :=
  s.Dot11TypeMetadata

def storeDot11Type (s : LayersState) (c : Dot11Type) (row : EnumMetadata) : LayersState :=
  { s with Dot11TypeMetadata := row }

/- Helper lemmas: the modelled sub-decoders obey the spec's decoder
contract — they always return a value (success or error), never abort. -/

theorem decodeIPv4_total (d : List Nat) (p : PacketBuilder) :
    (decodeIPv4 d p).isValue = true := by
  unfold decodeIPv4
  cases d with
  | nil => rfl
  | cons b t => by_cases h : (b % 256) / 16 = 4 <;> simp [h, DecodeResult.isValue]

theorem decodeIPv6_total (d : List Nat) (p : PacketBuilder) :
    (decodeIPv6 d p).isValue = true := by
  unfold decodeIPv6
  cases d with
  | nil => rfl
  | cons b t => by_cases h : (b % 256) / 16 = 6 <;> simp [h, DecodeResult.isValue]

/-- C8: the enumeration constants carry exactly the standards-defined
values: EthernetType IPv4 = 0x0800, ARP = 0x0806, IPv6 = 0x86DD;
IPProtocol TCP = 6, UDP = 17, ICMPv6 = 58; LinkType Ethernet = 1,
Raw = 101; PPPType IPv4 = 0x0021; and the 802.11 management Beacon
code = 0x20. -/
theorem c8_protocol_code_constants :
    EthernetTypeIPv4 = 0x0800 ∧ EthernetTypeARP = 0x0806 ∧
    EthernetTypeIPv6 = 0x86DD ∧ IPProtocolTCP = 6 ∧ IPProtocolUDP = 17 ∧
    IPProtocolICMPv6 = 58 ∧ LinkTypeEthernet = 1 ∧ LinkTypeRaw = 101 ∧
    PPPTypeIPv4 = 0x0021 ∧ Dot11TypeMgmtBeacon = 0x20 :=
  ⟨rfl, rfl, rfl, rfl, rfl, rfl, rfl, rfl, rfl, rfl⟩

/-- C9: for every Dot11Type value `d`, `MainType d` equals `d` masked
to its low 2 bits (`d % 4`), is one of the four coarse categories Mgmt,
Ctrl, Data, Reserved, is idempotent, and the Beacon code 0x20 has
MainType Mgmt. -/
theorem c9_dot11_maintype (d : Dot11Type) :
    Dot11Type.MainType d = d % 4 ∧
    (Dot11Type.MainType d = Dot11TypeMgmt ∨ Dot11Type.MainType d = Dot11TypeCtrl ∨
      Dot11Type.MainType d = Dot11TypeData ∨ Dot11Type.MainType d = Dot11TypeReserved) ∧
    Dot11Type.MainType (Dot11Type.MainType d) = Dot11Type.MainType d ∧
    Dot11Type.MainType Dot11TypeMgmtBeacon = Dot11TypeMgmt := by
  have key : ∀ x : Nat, x &&& 3 = x % 4 := fun x => Nat.and_pow_two_sub_one_eq_mod x 2
  have hmod : Dot11Type.MainType d = d % 4 := key d
  have h2 : Dot11Type.MainType (Dot11Type.MainType d) = Dot11Type.MainType d % 4 :=
    key (Dot11Type.MainType d)
  have hcases : ∀ m : Nat, m % 4 = 0 ∨ m % 4 = 1 ∨ m % 4 = 2 ∨ m % 4 = 3 := by
    intro m
    omega
  have hmm : ∀ m : Nat, m % 4 % 4 = m % 4 := by
    intro m
    omega
  refine ⟨hmod, ?_, ?_, by decide⟩
  · show Dot11Type.MainType d = 0 ∨ Dot11Type.MainType d = 1 ∨
      Dot11Type.MainType d = 2 ∨ Dot11Type.MainType d = 3
    rw [hmod]
    exact hcases d
  · rw [h2, hmod]
    exact hmm d

/-- C10: the distinctly named link-layer constants `LinkTypeC_HDLC` and
`LinkTypeLTalk` are the same numeric code 104, so the link-type
registry necessarily gives them the same row: lookups agree in every
state and stores through either name produce the same state. -/
theorem c10_linktype_alias :
    LinkTypeC_HDLC = LinkTypeLTalk ∧ LinkTypeC_HDLC = 104 ∧ LinkTypeLTalk = 104 ∧
    (∀ s : LayersState, lookupLinkType s LinkTypeC_HDLC = lookupLinkType s LinkTypeLTalk) ∧
    (∀ (s : LayersState) (row : EnumMetadata),
      storeLinkType s LinkTypeC_HDLC row = storeLinkType s LinkTypeLTalk row) :=
  ⟨rfl, rfl, rfl, fun _ => rfl, fun _ _ => rfl⟩

/-- C3: content-sniffing correctness of `decodeIPv4or6` — on every
non-empty buffer, high nibble 4 yields exactly the IPv4 sub-decoder's
result, high nibble 6 exactly the IPv6 sub-decoder's result, and any
other nibble value yields an error whose text contains that literal
value. -/
theorem c3_sniffing (dec4 dec6 : Decoder) (b : Nat) (rest : List Nat) (p : PacketBuilder) :
    ((b % 256) / 16 = 4 →
      decodeIPv4or6Gen dec4 dec6 (b :: rest) p = dec4 (b :: rest) p) ∧
    ((b % 256) / 16 = 6 →
      decodeIPv4or6Gen dec4 dec6 (b :: rest) p = dec6 (b :: rest) p) ∧
    ((b % 256) / 16 ≠ 4 → (b % 256) / 16 ≠ 6 →
      decodeIPv4or6Gen dec4 dec6 (b :: rest) p =
        .err ⟨"Invalid IP packet version " ++ toString ((b % 256) / 16)⟩ ∧
      containsLit ("Invalid IP packet version " ++ toString ((b % 256) / 16))
        (toString ((b % 256) / 16))) := by
  unfold decodeIPv4or6Gen
  refine ⟨fun h4 => by simp [h4], fun h6 => by simp [h6], fun h4 h6 => ⟨by simp [h4, h6], ?_⟩⟩
  exact ⟨"Invalid IP packet version ", "", by simp⟩

/-- Witness for C3 at concrete inputs 0x45 (nibble 4), 0x60 (nibble 6)
and 0x90 (nibble 9). -/
theorem c3_sniffing_witness :
    decodeIPv4or6Gen decodeIPv4 decodeIPv6 [0x45] ⟨0⟩ = decodeIPv4 [0x45] ⟨0⟩ ∧
    decodeIPv4or6Gen decodeIPv4 decodeIPv6 [0x60] ⟨0⟩ = decodeIPv6 [0x60] ⟨0⟩ ∧
    decodeIPv4or6Gen decodeIPv4 decodeIPv6 [0x90] ⟨0⟩ =
      .err ⟨"Invalid IP packet version " ++ toString ((0x90 % 256) / 16)⟩ :=
  ⟨(c3_sniffing decodeIPv4 decodeIPv6 0x45 [] ⟨0⟩).1 (by decide),
   (c3_sniffing decodeIPv4 decodeIPv6 0x60 [] ⟨0⟩).2.1 (by decide),
   ((c3_sniffing decodeIPv4 decodeIPv6 0x90 [] ⟨0⟩).2.2 (by decide) (by decide)).1⟩

/-- C4 counterexample: `decodeIPv4or6` on the zero-length buffer does
NOT return an error value — it indexes `data[0]` out of range and
aborts with a runtime panic. -/
theorem c4_counterexample :
    (decodeIPv4or6 [] ⟨0⟩).isValue = false ∧
    decodeIPv4or6 [] ⟨0⟩ = DecodeResult.crash "index out of range" :=
  ⟨rfl, rfl⟩

/-- C4 (amended): decode operations return values rather than aborting
on non-empty buffers, given sub-decoders that themselves return values:
`decodeIPv4or6` returns a value on every non-empty buffer, and a
family's `Decode` method returns a value whenever the family's
registered routine is present and returns a value.  (On the zero-length
buffer `decodeIPv4or6` aborts, and an unregistered nil routine
aborts — see the counterexample.) -/
theorem c4_amended (dec4 dec6 : Decoder)
    (h4 : ∀ d p, (dec4 d p).isValue = true)
    (h6 : ∀ d p, (dec6 d p).isValue = true) :
    (∀ (b : Nat) (rest : List Nat) (p : PacketBuilder),
      (decodeIPv4or6Gen dec4 dec6 (b :: rest) p).isValue = true) ∧
    (∀ (a : LinkType) (s : LayersState) (dec : Decoder) (d : List Nat) (p : PacketBuilder),
      s.LinkTypeMetadata.DecodeWith = some dec → (dec d p).isValue = true →
      (LinkType.Decode a s d p).isValue = true) := by
  constructor
  · intro b rest p
    unfold decodeIPv4or6Gen
    by_cases hv4 : (b % 256) / 16 = 4
    · simp [hv4, h4]
    · by_cases hv6 : (b % 256) / 16 = 6
      · simp [hv4, hv6, h6]
      · simp [hv4, hv6, DecodeResult.isValue]
  · intro a s dec d p hdec hval
    unfold LinkType.Decode EnumMetadata.run
    rw [hdec]
    exact hval

/-- Witness for C4 (amended) at concrete inputs: a one-byte buffer with
version nibble 9, and a link-type decode through a registered
always-error routine. -/
theorem c4_amended_witness :
    (decodeIPv4or6Gen decodeIPv4 decodeIPv6 [0x90] ⟨0⟩).isValue = true ∧
    (LinkType.Decode LinkTypeEthernet
      (storeLinkType bootState LinkTypeEthernet ⟨some (errorFunc "e"), "E", ⟨0⟩⟩)
      [] ⟨0⟩).isValue = true :=
  ⟨(c4_amended decodeIPv4 decodeIPv6 decodeIPv4_total decodeIPv6_total).1 0x90 [] ⟨0⟩,
   (c4_amended decodeIPv4 decodeIPv6 decodeIPv4_total decodeIPv6_total).2
     LinkTypeEthernet
     (storeLinkType bootState LinkTypeEthernet ⟨some (errorFunc "e"), "E", ⟨0⟩⟩)
     (errorFunc "e") [] ⟨0⟩ rfl rfl⟩

/-- C5: self-dispatch consistency — for every family, code, state,
buffer and accumulator, the code's `Decode` method equals invoking the
decoding routine of the row its family's registry looks up for it, its
`String` method equals that row's display name, and (for the families
that define the method) its `LayerType` method equals that row's layer
classification. -/
theorem c5_self_dispatch (s : LayersState) (c : Nat) (data : List Nat) (p : PacketBuilder) :
    (EthernetType.Decode c s data p = (lookupEthernetType s c).run data p ∧
      EthernetType.String c s = (lookupEthernetType s c).Name ∧
      EthernetType.LayerType c s = (lookupEthernetType s c).LayerType) ∧
    (IPProtocol.Decode c s data p = (lookupIPProtocol s c).run data p ∧
      IPProtocol.String c s = (lookupIPProtocol s c).Name ∧
      IPProtocol.LayerType c s = (lookupIPProtocol s c).LayerType) ∧
    (SCTPChunkType.Decode c s data p = (lookupSCTPChunkType s c).run data p ∧
      SCTPChunkType.String c s = (lookupSCTPChunkType s c).Name) ∧
    (PPPType.Decode c s data p = (lookupPPPType s c).run data p ∧
      PPPType.String c s = (lookupPPPType s c).Name) ∧
    (LinkType.Decode c s data p = (lookupLinkType s c).run data p ∧
      LinkType.String c s = (lookupLinkType s c).Name) ∧
    (PPPoECode.Decode c s data p = (lookupPPPoECode s c).run data p ∧
      PPPoECode.String c s = (lookupPPPoECode s c).Name) ∧
    (FDDIFrameControl.Decode c s data p = (lookupFDDIFrameControl s c).run data p ∧
      FDDIFrameControl.String c s = (lookupFDDIFrameControl s c).Name) ∧
    (EAPOLType.Decode c s data p = (lookupEAPOLType s c).run data p ∧
      EAPOLType.String c s = (lookupEAPOLType s c).Name ∧
      EAPOLType.LayerType c s = (lookupEAPOLType s c).LayerType) ∧
    (ProtocolFamily.Decode c s data p = (lookupProtocolFamily s c).run data p ∧
      ProtocolFamily.String c s = (lookupProtocolFamily s c).Name ∧
      ProtocolFamily.LayerType c s = (lookupProtocolFamily s c).LayerType) ∧
    (Dot11Type.Decode c s data p = (lookupDot11Type s c).run data p ∧
      Dot11Type.String c s = (lookupDot11Type s c).Name ∧
      Dot11Type.LayerType c s = (lookupDot11Type s c).LayerType) :=
  ⟨⟨rfl, rfl, rfl⟩, ⟨rfl, rfl, rfl⟩, ⟨rfl, rfl⟩, ⟨rfl, rfl⟩, ⟨rfl, rfl⟩, ⟨rfl, rfl⟩,
   ⟨rfl, rfl⟩, ⟨rfl, rfl, rfl⟩, ⟨rfl, rfl, rfl⟩, ⟨rfl, rfl, rfl⟩⟩

/-- C6: after bootstrap, Ethernet type 0x0800 is registered with the
IPv4-dispatching routine, display name "IPv4" and layer classification
IPv4, so decoding a buffer whose first byte is 0x45 (a valid IPv4
version/IHL byte) via code 0x0800 succeeds and the code reports the
IPv4 layer classification. -/
theorem c6_bootstrap_ethernet_ipv4 :
    lookupEthernetType bootState EthernetTypeIPv4 =
      { DecodeWith := some decodeIPv4, Name := "IPv4", LayerType := LayerTypeIPv4 } ∧
    (∀ (rest : List Nat) (p : PacketBuilder),
      EthernetType.Decode EthernetTypeIPv4 bootState (0x45 :: rest) p = DecodeResult.ok) ∧
    EthernetType.String EthernetTypeIPv4 bootState = "IPv4" ∧
    EthernetType.LayerType EthernetTypeIPv4 bootState = LayerTypeIPv4 :=
  ⟨rfl, fun _ _ => rfl, rfl, rfl⟩

/-- C7: last-write-wins — in every family, for every state, code and
rows R1, R2, storing R1 then R2 for the code and looking the code up
returns exactly R2; the store operation is total and always
succeeds. -/
theorem c7_last_write_wins (s : LayersState) (c : Nat) (r1 r2 : EnumMetadata) :
    lookupEthernetType (storeEthernetType (storeEthernetType s c r1) c r2) c = r2 ∧
    lookupIPProtocol (storeIPProtocol (storeIPProtocol s c r1) c r2) c = r2 ∧
    lookupSCTPChunkType (storeSCTPChunkType (storeSCTPChunkType s c r1) c r2) c = r2 ∧
    lookupPPPType (storePPPType (storePPPType s c r1) c r2) c = r2 ∧
    lookupLinkType (storeLinkType (storeLinkType s c r1) c r2) c = r2 ∧
    lookupPPPoECode (storePPPoECode (storePPPoECode s c r1) c r2) c = r2 ∧
    lookupFDDIFrameControl (storeFDDIFrameControl (storeFDDIFrameControl s c r1) c r2) c = r2 ∧
    lookupEAPOLType (storeEAPOLType (storeEAPOLType s c r1) c r2) c = r2 ∧
    lookupProtocolFamily (storeProtocolFamily (storeProtocolFamily s c r1) c r2) c = r2 ∧
    lookupDot11Type (storeDot11Type (storeDot11Type s c r1) c r2) c = r2 :=
  ⟨rfl, rfl, rfl, rfl, rfl, rfl, rfl, rfl, rfl, rfl⟩

/-- C1 is false of this source: the family metadata variables are
scalars, not per-code arrays, so storing a row for Ethernet code 0x0806
changes the row looked up for the distinct code 0x0800 (from the
bootstrap row named "IPv4" to the newly stored row named "ARP"), and
two distinct codes of a family can never hold distinct rows. -/
theorem c1_no_per_code_isolation :
    (lookupEthernetType bootState EthernetTypeIPv4).Name = "IPv4" ∧
    (lookupEthernetType
        (storeEthernetType bootState EthernetTypeARP
          { DecodeWith := some (errorFunc "ARP support not enabled"), Name := "ARP",
            LayerType := ⟨0⟩ })
        EthernetTypeIPv4).Name = "ARP" ∧
    (∀ (s : LayersState) (c1 c2 : EthernetType),
      lookupEthernetType s c1 = lookupEthernetType s c2) :=
  ⟨rfl, rfl, fun _ _ _ => rfl⟩

/-- C2 is false of this source: `init` never installs sentinel rows
(`errorFunc` is never called), so after bootstrap the unregistered IP
protocol code 200 decodes with the family-wide UDP routine — on an
8-byte buffer it SUCCEEDS instead of failing with an error mentioning
"200" — and a family `init` leaves untouched (e.g. LinkType) aborts on
its nil routine instead of returning an error value. -/
theorem c2_no_sentinel_rows :
    (∀ (d : List Nat) (p : PacketBuilder),
      IPProtocol.Decode 200 bootState d p = decodeUDP d p) ∧
    IPProtocol.Decode 200 bootState [0, 0, 0, 0, 0, 0, 0, 0] ⟨0⟩ = DecodeResult.ok ∧
    (lookupIPProtocol bootState 200).Name = "UDP" ∧
    (LinkType.Decode LinkTypeEthernet bootState [1] ⟨0⟩).isValue = false :=
  ⟨fun _ _ => rfl, rfl, rfl, rfl⟩
